import Mathlib

/-!
Verification of the transcript CLI and its ScrapeOps transport shim.

The definitions below are a shallow embedding of the two core source
files:
  * `youtube_transcript_api/scrapeops_client.py` (`ScrapeOpsClient`),
  * `youtube_transcript_api/_cli.py` (`YouTubeTranscriptCli`).
Python byte strings are modelled as `List Nat` (byte values), dictionaries
that preserve insertion order as association lists, and the outcome of the
single outbound network call as an explicit `Outcome` argument.  Exceptions
raised by external collaborators are modelled with `Except String`.
-/

/-- Python's substring test `pat in s`, on character lists: does `pat`
occur contiguously in `text`? -/
def hasSubList (pat : List Char) : List Char → Bool
  | [] => pat.isEmpty
  | c :: rest => startsWith pat (c :: rest) || hasSubList pat rest
where
  /-- Does the second list start with the first? -/
  startsWith : List Char → List Char → Bool
    | [], _ => true
    | _ :: _, [] => false
    | a :: as, b :: bs => a == b && startsWith as bs

/-- Python's `pat in s` on strings. -/
def containsSubstr (s pat : String) : Bool :=
  hasSubList pat.data s.data

/-- Standard UTF-8 encoding of one character, as its list of byte values
(the model of Python's `str.encode('utf-8')` acting on one code point). -/
def utf8EncodeChar (c : Char) : List Nat :=
  let n := c.toNat
  if n < 0x80 then [n]
  else if n < 0x800 then
    [0xC0 ||| (n >>> 6), 0x80 ||| (n &&& 0x3F)]
  else if n < 0x10000 then
    [0xE0 ||| (n >>> 12), 0x80 ||| ((n >>> 6) &&& 0x3F), 0x80 ||| (n &&& 0x3F)]
  else
    [0xF0 ||| (n >>> 18), 0x80 ||| ((n >>> 12) &&& 0x3F),
     0x80 ||| ((n >>> 6) &&& 0x3F), 0x80 ||| (n &&& 0x3F)]

/-- Python's `s.encode('utf-8')`: the byte sequence of a string. -/
def utf8Encode (s : String) : List Nat :=
  s.data.flatMap utf8EncodeChar

theorem utf8EncodeChar_ne_nil (c : Char) : utf8EncodeChar c ≠ [] := by
  unfold utf8EncodeChar
  dsimp only
  split
  · simp
  · split
    · simp
    · split
      · simp
      · simp

theorem utf8Encode_ne_nil (s : String) (h : s ≠ "") : utf8Encode s ≠ [] := by
  unfold utf8Encode
  cases s with
  | mk data =>
    cases data with
    | nil => exact absurd rfl h
    | cons c cs =>
      simp only [List.flatMap_cons, ne_eq, List.append_eq_nil]
      intro hc
      exact utf8EncodeChar_ne_nil c hc.1

/-! ## The ScrapeOps transport shim (`scrapeops_client.py`) -/

/-- `ScrapeOpsClient.__init__`: the client state.  `headers` and `cookies`
are the instance's mutable dictionaries (insertion-ordered association
lists); both start empty, `timeout` defaults to 120. -/
structure ScrapeOpsClient where
  api_key : String
  timeout : Nat := 120
  headers : List (String × String) := []
  cookies : List (String × String) := []
deriving DecidableEq

/-- scrapeops_client.py line 48: `'youtube.com' in url or 'youtu.be' in url`. -/
def isYoutubeUrl (url : String) : Bool :=
  containsSubstr url "youtube.com" || containsSubstr url "youtu.be"

/-- The default desktop-browser User-Agent written at line 83. -/
def defaultUserAgent : String :=
  "Mozilla/5.0 (Windows NT 10.0; Win64; x64) AppleWebKit/537.36 (KHTML, like Gecko) Chrome/91.0.4472.124 Safari/537.36"

/-- The default Accept-Language written at line 85. -/
def defaultAcceptLanguage : String :=
  "en-US,en;q=0.9"

/-- Lines 61–70: `'&'.join(f"k=v" ...)` over the params dictionary. -/
def paramStr (ps : List (String × String)) : String :=
  String.intercalate "&" (ps.map fun kv => kv.1 ++ "=" ++ kv.2)

/-- Lines 60–70: merge optional query params into the target URL by raw
string concatenation (`&`-append when the URL already contains `?`,
otherwise start a query string).  Python's `if params:` is false both for
`None` and for an empty dictionary. -/
def mergeParamsUrl (url : String) (params : Option (List (String × String))) : String :=
  match params with
  | none => url
  | some [] => url
  | some ps =>
    if containsSubstr url "?" then url ++ "&" ++ paramStr ps
    else url ++ "?" ++ paramStr ps

/-- Lines 80–85: when the held header dictionary is non-empty and the URL
was detected as YouTube, backfill the default User-Agent and
Accept-Language entries if absent.  This mutates `self.headers`. -/
def backfillHeaders (is_youtube : Bool) (headers : List (String × String)) :
    List (String × String) :=
  if headers.isEmpty then headers
  else
    let h1 :=
      if is_youtube && (headers.lookup "User-Agent").isNone then
        headers ++ [("User-Agent", defaultUserAgent)]
      else headers
    if is_youtube && (h1.lookup "Accept-Language").isNone then
      h1 ++ [("Accept-Language", defaultAcceptLanguage)]
    else h1

/-- The `proxy_params` dictionary assembled by `get` (lines 51–93); its
key set is static, so it is modelled as a structure.  The `headers` and
`cookies` entries hold the dictionaries that Python passes through
`json.dumps` (the JSON serialization, injective on string dictionaries,
is abstracted away). -/
structure ProxyParams where
  api_key : String
  url : String
  optimize_request : String
  render_js : String
  keep_headers : String
  country : String
  premium : Option String
  browser_type : Option String
  headers : Option (List (String × String))
  cookies : Option (List (String × String))
deriving DecidableEq

/-- How the upstream ScrapeOps body parses as JSON (line 113): not JSON at
all, or JSON with/without a textual `html` field. -/
inductive UpstreamParse where
  | parseFail : UpstreamParse
  | parsed : Option String → UpstreamParse
deriving DecidableEq

/-- The outcome of the single outbound `requests.get` call (line 97):
either some step raises an exception with the given textual description,
or the proxy service replies with a status code, raw body bytes, and a
JSON parse result for that body. -/
inductive Outcome where
  | raises : String → Outcome
  | replies : Nat → List Nat → UpstreamParse → Outcome
deriving DecidableEq

/-- The reconstructed `requests.Response`.  `encoding` is `none` until the
code assigns it (a fresh `requests.Response()` has `encoding = None`). -/
structure Response where
  status_code : Nat
  content : List Nat
  url : String
  encoding : Option String
deriving DecidableEq

/-- Everything `ScrapeOpsClient.get` produces: the reconstructed response,
the post-call client state (the headers dictionary may have been
mutated), and the proxy params passed to the outbound call. -/
structure GetResult where
  response : Response
  client : ScrapeOpsClient
  sent : ProxyParams
deriving DecidableEq

/-- `ScrapeOpsClient.get` (scrapeops_client.py lines 34–155).  The
`outcome` argument stands for what the single outbound network call does;
everything before it (URL merge, YouTube detection, param assembly,
header backfill) happens unconditionally. -/
def ScrapeOpsClient.get (c : ScrapeOpsClient) (url : String)
    (params : Option (List (String × String))) (outcome : Outcome) : GetResult :=
  let is_youtube := isYoutubeUrl url
  let newHeaders := backfillHeaders is_youtube c.headers
  let sent : ProxyParams :=
    { api_key := c.api_key
      url := mergeParamsUrl url params
      optimize_request := "true"
      render_js := "false"
      keep_headers := "true"
      country := "us"
      premium := if is_youtube then some "true" else none
      browser_type := if is_youtube then some "chrome" else none
      headers := if newHeaders.isEmpty then none else some newHeaders
      cookies := if c.cookies.isEmpty then none else some c.cookies }
  let cAfter : ScrapeOpsClient := { c with headers := newHeaders }
  match outcome with
  | .raises msg =>
    -- lines 144–155: contain the exception in a synthesized 500 response;
    -- note that `encoding` is never assigned on this path.
    { response := { status_code := 500, content := utf8Encode msg, url := url, encoding := none }
      client := cAfter
      sent := sent }
  | .replies status content parse =>
    -- lines 110–135 set status_code and _content branchwise; lines 137–140
    -- then set url and encoding on every reply path.
    let stBody : Nat × List Nat :=
      if status = 200 then
        match parse with
        | .parsed (some html) => (200, utf8Encode html)
        | .parsed none => (200, content)
        | .parseFail => (200, content)
      else (status, content)
    { response :=
        { status_code := stBody.1, content := stBody.2, url := url, encoding := some "utf-8" }
      client := cAfter
      sent := sent }

/-! ## Spec-side notion of platform-domain membership (refinement side of C2)

The spec describes platform detection as an *exact host match* against the
platform's domain set.  The following two definitions follow the spec's
words, to be compared with the source-side `isYoutubeUrl` above. -/

/-- Follows the spec's words: the platform's domain set, "the platform's
main domain and its short-link domain". -/
def youtubeDomainSet : List String :=
  ["youtube.com", "www.youtube.com", "youtu.be"]

/-- The character list after the first occurrence of `sep`, when `sep`
occurs. -/
def afterSep (sep : List Char) : List Char → Option (List Char)
  | [] => none
  | c :: rest =>
    if hasSubList.startsWith sep (c :: rest) then some ((c :: rest).drop sep.length)
    else afterSep sep rest

/-- Follows the spec's words: the host of a URL — the part after the
scheme separator, up to the first path, query, port or fragment
delimiter. -/
def hostOf (url : String) : String :=
  let afterScheme := (afterSep "://".data url.data).getD url.data
  String.mk (afterScheme.takeWhile fun ch => !("/?:#".data.contains ch))

/-! ## The CLI (`_cli.py`) -/

/-- The proxy configuration variants constructed in `run` (lines 20–34). -/
inductive ProxyConfig where
  | generic : String → String → ProxyConfig
  | webshare : Option String → Option String → ProxyConfig
deriving DecidableEq

/-- `_cli.py` lines 20–34: resolve the proxy configuration from the parsed
arguments.  A `GenericProxyConfig` is built first when either generic URL
is non-empty; a `WebshareProxyConfig` then overwrites it when either
credential is present (not `None`). -/
def resolveProxyConfig (http_proxy https_proxy : String)
    (webshare_proxy_username webshare_proxy_password : Option String) :
    Option ProxyConfig :=
  let proxy_config : Option ProxyConfig := none
  let proxy_config :=
    if http_proxy != "" || https_proxy != "" then
      some (.generic http_proxy https_proxy)
    else proxy_config
  if webshare_proxy_username.isSome || webshare_proxy_password.isSome then
    some (.webshare webshare_proxy_username webshare_proxy_password)
  else proxy_config

/-- The namespace produced by `_parse_args` (lines 99–196), with the same
fields and defaults. -/
structure ParsedArgs where
  video_ids : List String := []
  format : String := "plain"
  languages : List String := ["en"]
  http_proxy : String := ""
  https_proxy : String := ""
  webshare_proxy_username : Option String := none
  webshare_proxy_password : Option String := none
  cookies : Option String := none
  scrapeops_api_key : Option String := none
  list_transcripts : Bool := false
  exclude_generated : Bool := false
  exclude_manually_created : Bool := false
  translate : String := ""
deriving DecidableEq

/-- One call into the external transcript engine, recorded so that the
theorems can speak about which engine operations a run performs. -/
inductive EngineCall where
  | listCall : String → EngineCall
  | findCall : String → List String → EngineCall
  | translateCall : String → EngineCall
  | fetchCall : EngineCall
deriving DecidableEq

/-- The external engine contract consumed by the CLI (spec §6): listing,
the three `find_*` selectors, translation and fetching.  `TL` is the
engine's transcript-list type, `TR` its transcript-descriptor type, `FT`
its fetched-transcript type; raising is modelled by `Except String`. -/
structure EngineOps (TL TR FT : Type) where
  list : String → Except String TL
  find_transcript : TL → List String → Except String TR
  find_generated_transcript : TL → List String → Except String TR
  find_manually_created_transcript : TL → List String → Except String TR
  translate : TR → String → Except String TR
  fetch : TR → Except String FT

/-- Lines 83–92 of `_fetch_transcript`: which `find_*` selector runs,
named by the generation-source restriction it applies. -/
def findKind (args : ParsedArgs) : String :=
  if args.exclude_manually_created then "generated"
  else if args.exclude_generated then "manually_created"
  else "any"

/-- Lines 83–92 of `_fetch_transcript`: the selector call itself. -/
def findSel {TL TR FT : Type} (args : ParsedArgs) (ops : EngineOps TL TR FT)
    (transcript_list : TL) : Except String TR :=
  if args.exclude_manually_created then
    ops.find_generated_transcript transcript_list args.languages
  else if args.exclude_generated then
    ops.find_manually_created_transcript transcript_list args.languages
  else
    ops.find_transcript transcript_list args.languages

/-- `YouTubeTranscriptCli._fetch_transcript` (lines 78–97), with the list
of engine calls it performs. -/
def fetchTranscript {TL TR FT : Type} (args : ParsedArgs) (ops : EngineOps TL TR FT)
    (transcript_list : TL) : Except String FT × List EngineCall :=
  let tr0 := [EngineCall.findCall (findKind args) args.languages]
  match findSel args ops transcript_list with
  | .error e => (.error e, tr0)
  | .ok transcript =>
    if args.translate != "" then
      match ops.translate transcript args.translate with
      | .error e => (.error e, tr0 ++ [EngineCall.translateCall args.translate])
      | .ok translated =>
        match ops.fetch translated with
        | .error e =>
          (.error e, tr0 ++ [EngineCall.translateCall args.translate, EngineCall.fetchCall])
        | .ok fetched =>
          (.ok fetched, tr0 ++ [EngineCall.translateCall args.translate, EngineCall.fetchCall])
    else
      match ops.fetch transcript with
      | .error e => (.error e, tr0 ++ [EngineCall.fetchCall])
      | .ok fetched => (.ok fetched, tr0 ++ [EngineCall.fetchCall])

/-- The body of the `try` block for one video id (lines 49–59): list the
transcripts, then either keep the listing (with `--list-transcripts`) or
fetch; any error escaping either step is the captured exception. -/
def processVideo {TL TR FT : Type} (args : ParsedArgs) (ops : EngineOps TL TR FT)
    (video_id : String) : Except String (TL ⊕ FT) × List EngineCall :=
  match ops.list video_id with
  | .error e => (.error e, [EngineCall.listCall video_id])
  | .ok transcript_list =>
    if args.list_transcripts then
      (.ok (.inl transcript_list), [EngineCall.listCall video_id])
    else
      let fr := fetchTranscript args ops transcript_list
      (fr.1.map Sum.inr, EngineCall.listCall video_id :: fr.2)

/-- The `for video_id in parsed_args.video_ids` loop (lines 48–61):
exceptions and successes accumulate in separate ordered lists, a failure
appending to `exceptions` and processing continuing with the next id. -/
def runLoop {TL TR FT : Type} (args : ParsedArgs) (ops : EngineOps TL TR FT) :
    List String → List String × List (TL ⊕ FT) × List EngineCall
  | [] => ([], [], [])
  | video_id :: rest =>
    let pr := processVideo args ops video_id
    let r := runLoop args ops rest
    match pr.1 with
    | .error e => (e :: r.1, r.2.1, pr.2 ++ r.2.2)
    | .ok t => (r.1, t :: r.2.1, pr.2 ++ r.2.2)

/-- `YouTubeTranscriptCli.run` (lines 14–76) from the parsed arguments.
`mkApi` stands for the `YouTubeTranscriptApi(...)` constructor (an
external collaborator receiving the resolved proxy configuration),
`render_list` for `str(transcript_list)` and `format_transcripts` for
`FormatterLoader().load(fmt).format_transcripts(...)`.  Returns the
printed output together with the engine calls performed. -/
def YouTubeTranscriptCli.run {TL TR FT : Type} (args : ParsedArgs)
    (mkApi : Option ProxyConfig → EngineOps TL TR FT)
    (render_list : TL → String)
    (format_transcripts : String → List FT → String) :
    String × List EngineCall :=
  if args.exclude_manually_created && args.exclude_generated then ("", [])
  else
    let proxy_config := resolveProxyConfig args.http_proxy args.https_proxy
      args.webshare_proxy_username args.webshare_proxy_password
    let ops := mkApi proxy_config
    let r := runLoop args ops args.video_ids
    let transcripts := r.2.1
    let print_sections :=
      r.1 ++
        (if transcripts.isEmpty then []
         else if args.list_transcripts then
           transcripts.filterMap fun t =>
             match t with
             | .inl transcript_list => some (render_list transcript_list)
             | .inr _ => none
         else
           [format_transcripts args.format
             (transcripts.filterMap fun t =>
               match t with
               | .inl _ => none
               | .inr fetched => some fetched)])
    (String.intercalate "\n\n" print_sections, r.2.2)

/-- `_build_available_formats` (lines 198–201): returns the empty list. -/
def build_available_formats : List String := []

/-- The argparse semantics of the `--format` option as declared at lines
112–119 (`default='plain'`, `const='plain'`, `nargs='?'`,
`choices=_build_available_formats()`): `none` means the option was absent
(argparse installs the default, running only type conversion, never a
choices check), `some none` means a bare `--format` (argparse substitutes
the const and, the const being a string, validates it against the choices
list), and `some (some v)` means an explicitly supplied value, validated
against the choices list. -/
def parseFormatOption : Option (Option String) → Except String String
  | none => .ok "plain"
  | some none =>
    if build_available_formats.contains "plain" then .ok "plain"
    else .error ("argument --format: invalid choice: " ++ "plain")
  | some (some v) =>
    if build_available_formats.contains v then .ok v
    else .error ("argument --format: invalid choice: " ++ v)

/-! ## Theorems: the transport shim -/

/-- C1 (amended): when the outbound call raises, `get` does not raise; it
returns a response with status 500, body the exception's textual
description UTF-8 encoded (hence non-empty whenever the description is
non-empty) and effective URL the original target URL. -/
theorem c1_exception_contained (c : ScrapeOpsClient) (url : String)
    (params : Option (List (String × String))) (msg : String) :
    ((c.get url params (Outcome.raises msg)).response.status_code = 500) ∧
    ((c.get url params (Outcome.raises msg)).response.content = utf8Encode msg) ∧
    ((c.get url params (Outcome.raises msg)).response.url = url) ∧
    (msg ≠ "" → (c.get url params (Outcome.raises msg)).response.content ≠ []) := by
  refine ⟨rfl, rfl, rfl, fun h => ?_⟩
  exact utf8Encode_ne_nil msg h

/-- Witness for C1's amended theorem at a concrete exception. -/
theorem c1_exception_contained_witness :
    ({ api_key := "k" : ScrapeOpsClient }.get "https://www.youtube.com/watch?v=a"
        none (Outcome.raises "Connection timed out")).response.content ≠ [] :=
  (c1_exception_contained { api_key := "k" } "https://www.youtube.com/watch?v=a"
    none "Connection timed out").2.2.2 (by decide)

/-- C1 counterexample: for an exception whose textual description is empty
(as `str(Exception())` is in Python), the synthesized body is empty, so
the claim's "body ... is non-empty" fails while status is still 500. -/
theorem c1_counterexample :
    ({ api_key := "k" : ScrapeOpsClient }.get "https://www.youtube.com/watch"
        none (Outcome.raises "")).response.status_code = 500 ∧
    ({ api_key := "k" : ScrapeOpsClient }.get "https://www.youtube.com/watch"
        none (Outcome.raises "")).response.content = [] :=
  ⟨rfl, rfl⟩

/-- C2 (amended): the platform tuning flag — visible as the `premium` and
`browser_type` proxy parameters — is set if and only if `youtube.com` or
`youtu.be` occurs as a *substring* anywhere in the target URL (not only
as its exact host). -/
theorem c2_platform_flag (c : ScrapeOpsClient) (url : String)
    (params : Option (List (String × String))) (outcome : Outcome) :
    ((c.get url params outcome).sent.premium = some "true" ∧
     (c.get url params outcome).sent.browser_type = some "chrome") ↔
      (containsSubstr url "youtube.com" = true ∨ containsSubstr url "youtu.be" = true) := by
  have hsent : (c.get url params outcome).sent.premium =
      (if isYoutubeUrl url then some "true" else none) ∧
      (c.get url params outcome).sent.browser_type =
      (if isYoutubeUrl url then some "chrome" else none) := by
    cases outcome with
    | raises msg => exact ⟨rfl, rfl⟩
    | replies status content parse => exact ⟨rfl, rfl⟩
  rw [hsent.1, hsent.2]
  unfold isYoutubeUrl
  cases h1 : containsSubstr url "youtube.com" <;>
    cases h2 : containsSubstr url "youtu.be" <;> simp

/-- C2 counterexample: a URL whose host (`example.com`) is not in the
platform domain set, but which contains `youtube.com` as a query-string
substring, still gets the platform tuning parameters. -/
theorem c2_counterexample :
    isYoutubeUrl "https://example.com/watch?ref=youtube.com" = true ∧
    youtubeDomainSet.contains (hostOf "https://example.com/watch?ref=youtube.com") = false ∧
    ({ api_key := "k" : ScrapeOpsClient }.get "https://example.com/watch?ref=youtube.com"
        none (Outcome.replies 200 [] UpstreamParse.parseFail)).sent.premium = some "true" ∧
    ({ api_key := "k" : ScrapeOpsClient }.get "https://example.com/watch?ref=youtube.com"
        none (Outcome.replies 200 [] UpstreamParse.parseFail)).sent.browser_type = some "chrome" :=
  ⟨by decide, by decide, rfl, rfl⟩

/-- C3: for every upstream reply, the reconstructed response carries the
upstream status code, and its body is the `html` field's text UTF-8
encoded exactly when the upstream status is 200 and the body parsed as
JSON containing `html`; otherwise it is the raw upstream bytes. -/
theorem c3_upstream_passthrough (c : ScrapeOpsClient) (url : String)
    (params : Option (List (String × String))) (status : Nat) (content : List Nat)
    (parse : UpstreamParse) :
    ((c.get url params (Outcome.replies status content parse)).response.status_code = status) ∧
    ((c.get url params (Outcome.replies status content parse)).response.content =
      if status = 200 then
        match parse with
        | UpstreamParse.parsed (some html) => utf8Encode html
        | UpstreamParse.parsed none => content
        | UpstreamParse.parseFail => content
      else content) := by
  unfold ScrapeOpsClient.get
  dsimp only
  by_cases h : status = 200
  · subst h
    cases parse with
    | parseFail => simp
    | parsed o => cases o <;> simp
  · simp [h]

/-- C4 (amended): the reconstructed response's effective URL is always the
original target URL; its encoding is set to UTF-8 on the reply paths, but
is left unset (`None`) on the exception path. -/
theorem c4_url_encoding (c : ScrapeOpsClient) (url : String)
    (params : Option (List (String × String))) (status : Nat) (content : List Nat)
    (parse : UpstreamParse) (msg : String) :
    ((c.get url params (Outcome.replies status content parse)).response.url = url ∧
     (c.get url params (Outcome.replies status content parse)).response.encoding = some "utf-8") ∧
    ((c.get url params (Outcome.raises msg)).response.url = url ∧
     (c.get url params (Outcome.raises msg)).response.encoding = none) :=
  ⟨⟨rfl, rfl⟩, rfl, rfl⟩

/-- C4 counterexample: on the exception path the response's encoding is
not set to UTF-8 (it remains `None`), though the URL is the original. -/
theorem c4_counterexample :
    ({ api_key := "k" : ScrapeOpsClient }.get "https://www.youtube.com/watch"
        none (Outcome.raises "boom")).response.encoding ≠ some "utf-8" ∧
    ({ api_key := "k" : ScrapeOpsClient }.get "https://www.youtube.com/watch"
        none (Outcome.raises "boom")).response.encoding = none ∧
    ({ api_key := "k" : ScrapeOpsClient }.get "https://www.youtube.com/watch"
        none (Outcome.raises "boom")).response.url = "https://www.youtube.com/watch" :=
  ⟨by decide, rfl, rfl⟩

/-! ## Theorems: configuration resolution -/

/-- C5: the resolved proxy configuration is Credentialed (Webshare)
whenever a credential is present (either one alone suffices), regardless
of generic URLs; otherwise Generic whenever a generic proxy URL is
non-empty; otherwise no proxy configuration. -/
theorem c5_proxy_resolution (http_proxy https_proxy : String)
    (wu wp : Option String) :
    (wu.isSome = true ∨ wp.isSome = true →
      resolveProxyConfig http_proxy https_proxy wu wp =
        some (ProxyConfig.webshare wu wp)) ∧
    (wu = none → wp = none → (http_proxy ≠ "" ∨ https_proxy ≠ "") →
      resolveProxyConfig http_proxy https_proxy wu wp =
        some (ProxyConfig.generic http_proxy https_proxy)) ∧
    (wu = none → wp = none → http_proxy = "" → https_proxy = "" →
      resolveProxyConfig http_proxy https_proxy wu wp = none) := by
  refine ⟨fun h => ?_, fun hu hp hne => ?_, fun hu hp h1 h2 => ?_⟩
  · have hcond : (wu.isSome || wp.isSome) = true := by
      rcases h with h | h <;> simp [h]
    simp [resolveProxyConfig, hcond]
  · subst hu; subst hp
    have hcond : (http_proxy != "" || https_proxy != "") = true := by
      rcases hne with h | h <;> simp [h]
    simp [resolveProxyConfig, hcond]
  · subst hu; subst hp; subst h1; subst h2
    simp [resolveProxyConfig]

/-- Witness for C5: a present username beats supplied generic URLs. -/
theorem c5_proxy_resolution_witness :
    resolveProxyConfig "http://gen.example" "https://gen.example" (some "user") none =
      some (ProxyConfig.webshare (some "user") none) :=
  (c5_proxy_resolution "http://gen.example" "https://gen.example"
    (some "user") none).1 (Or.inl rfl)

/-! ## Theorems: header-map mutation (frame effect of the shim) -/

theorem lookup_append (a : String) (l1 l2 : List (String × String)) :
    (l1 ++ l2).lookup a = ((l1.lookup a).or (l2.lookup a)) := by
  induction l1 with
  | nil => simp [List.lookup]
  | cons kv rest ih =>
    obtain ⟨k, v⟩ := kv
    cases h : (a == k) <;> simp [List.lookup, h, ih]

theorem isEmpty_eq_false_of_ne_nil {α : Type} {l : List α} (h : l ≠ []) :
    l.isEmpty = false := by
  cases l with
  | nil => exact absurd rfl h
  | cons x xs => rfl

theorem lookup_al_of_ua (v : String) :
    List.lookup "Accept-Language" [("User-Agent", v)] = none := rfl

theorem lookup_ua_of_al (v : String) :
    List.lookup "User-Agent" [("Accept-Language", v)] = none := rfl

theorem lookup_ua_of_ua (v : String) :
    List.lookup "User-Agent" [("User-Agent", v)] = some v := rfl

theorem lookup_al_of_al (v : String) :
    List.lookup "Accept-Language" [("Accept-Language", v)] = some v := rfl

theorem lookup_al_of_ua_al (v w : String) :
    List.lookup "Accept-Language" [("User-Agent", v), ("Accept-Language", w)] = some w := rfl

theorem lookup_ua_of_ua_al (v w : String) :
    List.lookup "User-Agent" [("User-Agent", v), ("Accept-Language", w)] = some v := rfl

theorem backfillHeaders_ne_nil (b : Bool) (headers : List (String × String))
    (h : headers ≠ []) : backfillHeaders b headers ≠ [] := by
  unfold backfillHeaders
  rw [isEmpty_eq_false_of_ne_nil h, if_neg Bool.false_ne_true]
  dsimp only
  split
  · split
    · simp
    · simp
  · split
    · simp
    · exact h

theorem backfillHeaders_preserves (b : Bool) (headers : List (String × String))
    (k v : String) (hk : headers.lookup k = some v) :
    (backfillHeaders b headers).lookup k = some v := by
  unfold backfillHeaders
  by_cases hne : headers.isEmpty = true
  · rw [if_pos hne]; exact hk
  · rw [if_neg hne]
    dsimp only
    split
    · split
      · simp [lookup_append, hk]
      · simp [lookup_append, hk]
    · split
      · simp [lookup_append, hk]
      · exact hk

theorem backfillHeaders_spec (headers : List (String × String)) (hne : headers ≠ []) :
    ((backfillHeaders true headers).lookup "User-Agent" =
      ((headers.lookup "User-Agent").or (some defaultUserAgent))) ∧
    ((backfillHeaders true headers).lookup "Accept-Language" =
      ((headers.lookup "Accept-Language").or (some defaultAcceptLanguage))) := by
  unfold backfillHeaders
  rw [isEmpty_eq_false_of_ne_nil hne, if_neg Bool.false_ne_true]
  dsimp only
  cases hUA : List.lookup "User-Agent" headers <;>
    cases hAL : List.lookup "Accept-Language" headers <;>
      simp [lookup_append, hUA, hAL, lookup_al_of_ua, lookup_ua_of_al,
        lookup_ua_of_ua, lookup_al_of_al, lookup_al_of_ua_al, lookup_ua_of_ua_al]

/-- C9: on a platform URL with a non-empty header map lacking User-Agent
and Accept-Language, `get` writes the default desktop-browser values into
the instance's own headers dictionary, and every subsequent call through
that instance — including to non-platform URLs — sends a headers proxy
parameter containing those backfilled defaults. -/
theorem c9_backfill_persists (c : ScrapeOpsClient) (url : String)
    (params : Option (List (String × String))) (outcome : Outcome)
    (hne : c.headers ≠ []) (hyt : isYoutubeUrl url = true)
    (hua : c.headers.lookup "User-Agent" = none)
    (hal : c.headers.lookup "Accept-Language" = none) :
    ((c.get url params outcome).client.headers.lookup "User-Agent" =
        some defaultUserAgent) ∧
    ((c.get url params outcome).client.headers.lookup "Accept-Language" =
        some defaultAcceptLanguage) ∧
    (∀ (url2 : String) (params2 : Option (List (String × String))) (outcome2 : Outcome),
      ∃ hs,
        ((c.get url params outcome).client.get url2 params2 outcome2).sent.headers = some hs ∧
        hs.lookup "User-Agent" = some defaultUserAgent ∧
        hs.lookup "Accept-Language" = some defaultAcceptLanguage) := by
  have hclient : (c.get url params outcome).client.headers =
      backfillHeaders (isYoutubeUrl url) c.headers := by
    cases outcome <;> rfl
  rw [hyt] at hclient
  obtain ⟨hbua, hbal⟩ := backfillHeaders_spec c.headers hne
  have hua1 : (c.get url params outcome).client.headers.lookup "User-Agent" =
      some defaultUserAgent := by rw [hclient, hbua, hua]; rfl
  have hal1 : (c.get url params outcome).client.headers.lookup "Accept-Language" =
      some defaultAcceptLanguage := by rw [hclient, hbal, hal]; rfl
  refine ⟨hua1, hal1, fun url2 params2 outcome2 => ?_⟩
  have h2ne : (c.get url params outcome).client.headers ≠ [] := by
    rw [hclient]
    exact backfillHeaders_ne_nil true c.headers hne
  have hsent : ((c.get url params outcome).client.get url2 params2 outcome2).sent.headers =
      (if (backfillHeaders (isYoutubeUrl url2)
              (c.get url params outcome).client.headers).isEmpty then none
       else some (backfillHeaders (isYoutubeUrl url2)
              (c.get url params outcome).client.headers)) := by
    cases outcome2 <;> rfl
  have hb2ne : backfillHeaders (isYoutubeUrl url2)
      (c.get url params outcome).client.headers ≠ [] :=
    backfillHeaders_ne_nil _ _ h2ne
  refine ⟨backfillHeaders (isYoutubeUrl url2) (c.get url params outcome).client.headers,
    ?_, ?_, ?_⟩
  · rw [hsent, isEmpty_eq_false_of_ne_nil hb2ne]
    rfl
  · exact backfillHeaders_preserves _ _ _ _ hua1
  · exact backfillHeaders_preserves _ _ _ _ hal1

/-- Witness for C9: a YouTube call with one custom header backfills the
defaults, and a later call to a non-platform URL still sends them. -/
theorem c9_backfill_persists_witness :
    ∃ hs,
      (({ api_key := "k", headers := [("X-Test", "1")] : ScrapeOpsClient }.get
            "https://www.youtube.com/watch?v=a" none
            (Outcome.replies 200 [] UpstreamParse.parseFail)).client.get
          "https://example.com/" none (Outcome.replies 200 [] UpstreamParse.parseFail)).sent.headers =
        some hs ∧
      hs.lookup "User-Agent" = some defaultUserAgent ∧
      hs.lookup "Accept-Language" = some defaultAcceptLanguage :=
  (c9_backfill_persists { api_key := "k", headers := [("X-Test", "1")] }
      "https://www.youtube.com/watch?v=a" none
      (Outcome.replies 200 [] UpstreamParse.parseFail)
      (by decide) (by decide) (by decide) (by decide)).2.2
    "https://example.com/" none (Outcome.replies 200 [] UpstreamParse.parseFail)

/-! ## Theorems: the batch pipeline -/

/-- The rendering of a captured per-item failure, `none` on success. -/
def errorText {α : Type} : Except String α → Option String
  | .error e => some e
  | .ok _ => none

/-- Projects the video id out of a listing call. -/
def listCallId : EngineCall → Option String
  | .listCall v => some v
  | _ => none

theorem fetchTranscript_trace_no_list {TL TR FT : Type} (args : ParsedArgs)
    (ops : EngineOps TL TR FT) (tl : TL) :
    ((fetchTranscript args ops tl).2).filterMap listCallId = [] := by
  unfold fetchTranscript
  dsimp only
  cases hs : findSel args ops tl with
  | error e => simp [listCallId]
  | ok transcript =>
    dsimp only
    split
    · cases ht : ops.translate transcript args.translate with
      | error e => simp [ht, listCallId]
      | ok translated =>
        cases hf : ops.fetch translated with
        | error e => simp [ht, hf, listCallId]
        | ok fetched => simp [ht, hf, listCallId]
    · cases hf : ops.fetch transcript with
      | error e => simp [hf, listCallId]
      | ok fetched => simp [hf, listCallId]

theorem processVideo_trace {TL TR FT : Type} (args : ParsedArgs)
    (ops : EngineOps TL TR FT) (v : String) :
    ((processVideo args ops v).2).filterMap listCallId = [v] := by
  unfold processVideo
  cases ops.list v with
  | error e => simp [listCallId]
  | ok tl =>
    dsimp only
    split
    · simp [listCallId]
    · simp [listCallId, fetchTranscript_trace_no_list]

/-- The loop is a per-item map: each identifier's contribution to the
error list, the success list and the call trace depends only on that
identifier's own processing — no early abort. -/
theorem runLoop_spec {TL TR FT : Type} (args : ParsedArgs) (ops : EngineOps TL TR FT)
    (ids : List String) :
    runLoop args ops ids =
      (ids.filterMap (fun v => errorText (processVideo args ops v).1),
       ids.filterMap (fun v => ((processVideo args ops v).1).toOption),
       ids.flatMap (fun v => (processVideo args ops v).2)) := by
  induction ids with
  | nil => rfl
  | cons v rest ih =>
    simp only [runLoop, ih, List.filterMap_cons, List.flatMap_cons]
    cases h : (processVideo args ops v).1 with
    | error e => simp [errorText, Except.toOption, h]
    | ok t => simp [errorText, Except.toOption, h]

theorem filterMap_flatMap {α β γ : Type} (l : List α) (f : α → List β) (g : β → Option γ) :
    (l.flatMap f).filterMap g = l.flatMap fun a => (f a).filterMap g := by
  induction l with
  | nil => rfl
  | cons a rest ih => simp [List.flatMap_cons, List.filterMap_append, ih]

/-- C6: when both exclude flags are set, the run returns the empty result
immediately and performs no engine operation at all. -/
theorem c6_contradictory_filters {TL TR FT : Type} (args : ParsedArgs)
    (mkApi : Option ProxyConfig → EngineOps TL TR FT)
    (render_list : TL → String) (format_transcripts : String → List FT → String)
    (h1 : args.exclude_manually_created = true) (h2 : args.exclude_generated = true) :
    YouTubeTranscriptCli.run args mkApi render_list format_transcripts = ("", []) := by
  unfold YouTubeTranscriptCli.run
  rw [h1, h2]
  rfl

/-- Witness for C6 with two identifiers and a live engine oracle. -/
theorem c6_contradictory_filters_witness :
    YouTubeTranscriptCli.run
      { video_ids := ["A", "B"], exclude_manually_created := true, exclude_generated := true }
      (fun _ => { list := fun v => Except.ok v
                  find_transcript := fun _ _ => Except.ok "t"
                  find_generated_transcript := fun _ _ => Except.ok "t"
                  find_manually_created_transcript := fun _ _ => Except.ok "t"
                  translate := fun t _ => Except.ok t
                  fetch := fun _ => Except.ok "f" })
      (fun tl => tl) (fun _ fts => String.intercalate ", " fts) = ("", []) :=
  c6_contradictory_filters _ _ _ _ rfl rfl

/-- C7: unless the contradictory-filter short circuit fires, every
identifier is attempted (in input order), and the output is the error
renderings of the failed identifiers in input order, followed by the
listing renderings or the combined formatter output of the successful
ones, all joined with blank-line separators. -/
theorem c7_batch_no_abort {TL TR FT : Type} (args : ParsedArgs)
    (mkApi : Option ProxyConfig → EngineOps TL TR FT)
    (render_list : TL → String) (format_transcripts : String → List FT → String)
    (h : (args.exclude_manually_created && args.exclude_generated) = false) :
    ((YouTubeTranscriptCli.run args mkApi render_list format_transcripts).2.filterMap
        listCallId = args.video_ids) ∧
    ((YouTubeTranscriptCli.run args mkApi render_list format_transcripts).1 =
      String.intercalate "\n\n"
        ((args.video_ids.filterMap fun v =>
            errorText (processVideo args
              (mkApi (resolveProxyConfig args.http_proxy args.https_proxy
                args.webshare_proxy_username args.webshare_proxy_password)) v).1) ++
         (let succ := args.video_ids.filterMap fun v =>
            ((processVideo args
              (mkApi (resolveProxyConfig args.http_proxy args.https_proxy
                args.webshare_proxy_username args.webshare_proxy_password)) v).1).toOption
          if succ.isEmpty then []
          else if args.list_transcripts then
            succ.filterMap fun t =>
              match t with
              | .inl transcript_list => some (render_list transcript_list)
              | .inr _ => none
          else
            [format_transcripts args.format
              (succ.filterMap fun t =>
                match t with
                | .inl _ => none
                | .inr fetched => some fetched)]))) := by
  unfold YouTubeTranscriptCli.run
  rw [h, if_neg Bool.false_ne_true]
  dsimp only
  rw [runLoop_spec]
  dsimp only
  constructor
  · rw [filterMap_flatMap]
    have : ∀ v : String, ((processVideo args
        (mkApi (resolveProxyConfig args.http_proxy args.https_proxy
          args.webshare_proxy_username args.webshare_proxy_password)) v).2).filterMap
            listCallId = [v] := fun v => processVideo_trace _ _ v
    simp only [this]
    induction args.video_ids with
    | nil => rfl
    | cons v rest ih => simp [List.flatMap_cons, ih]
  · rfl

/-- Witness for C7: identifier A fails (disabled transcripts), B succeeds;
A's error text is followed by a blank line and B's formatted transcript,
and both identifiers were attempted. -/
theorem c7_batch_no_abort_witness :
    ((YouTubeTranscriptCli.run { video_ids := ["A", "B"] }
        (fun _ =>
          ({ list := fun v =>
                if v == "A" then Except.error "TranscriptsDisabled: A"
                else Except.ok ("list-" ++ v)
             find_transcript := fun tl _ => Except.ok ("tr-" ++ tl)
             find_generated_transcript := fun tl _ => Except.ok ("tr-" ++ tl)
             find_manually_created_transcript := fun tl _ => Except.ok ("tr-" ++ tl)
             translate := fun t _ => Except.ok t
             fetch := fun t => Except.ok ("fetched-" ++ t) } : EngineOps String String String))
        (fun tl => tl) (fun _ fts => String.intercalate ", " fts)).2.filterMap listCallId =
      ["A", "B"]) ∧
    ((YouTubeTranscriptCli.run { video_ids := ["A", "B"] }
        (fun _ =>
          ({ list := fun v =>
                if v == "A" then Except.error "TranscriptsDisabled: A"
                else Except.ok ("list-" ++ v)
             find_transcript := fun tl _ => Except.ok ("tr-" ++ tl)
             find_generated_transcript := fun tl _ => Except.ok ("tr-" ++ tl)
             find_manually_created_transcript := fun tl _ => Except.ok ("tr-" ++ tl)
             translate := fun t _ => Except.ok t
             fetch := fun t => Except.ok ("fetched-" ++ t) } : EngineOps String String String))
        (fun tl => tl) (fun _ fts => String.intercalate ", " fts)).1 =
      "TranscriptsDisabled: A\n\nfetched-tr-list-B") := by
  obtain ⟨h1, h2⟩ := c7_batch_no_abort { video_ids := ["A", "B"] }
    (fun _ =>
      ({ list := fun v =>
            if v == "A" then Except.error "TranscriptsDisabled: A"
            else Except.ok ("list-" ++ v)
         find_transcript := fun tl _ => Except.ok ("tr-" ++ tl)
         find_generated_transcript := fun tl _ => Except.ok ("tr-" ++ tl)
         find_manually_created_transcript := fun tl _ => Except.ok ("tr-" ++ tl)
         translate := fun t _ => Except.ok t
         fetch := fun t => Except.ok ("fetched-" ++ t) } : EngineOps String String String))
    (fun tl => tl) (fun _ fts => String.intercalate ", " fts) rfl
  refine ⟨h1, ?_⟩
  rw [h2]
  rfl

/-! ## Theorems: the `--format` option -/

/-- C8 evaluation at the failing input: parsing a command line that omits
`--format` yields the format name `plain` (not a pretty-print format
name). -/
theorem c8_default_format_plain : parseFormatOption none = Except.ok "plain" := rfl

/-- C10: every explicitly supplied `--format` value is rejected as an
invalid choice, because the available-format list offered to the parser
is empty (a bare `--format` is rejected too, its string const being
choices-checked); only invocations that omit `--format` pass parsing,
taking the default `plain`. -/
theorem c10_format_always_rejected :
    (∀ v : String, parseFormatOption (some (some v)) =
      Except.error ("argument --format: invalid choice: " ++ v)) ∧
    build_available_formats = [] ∧
    parseFormatOption none = Except.ok "plain" ∧
    parseFormatOption (some none) =
      Except.error ("argument --format: invalid choice: " ++ "plain") :=
  ⟨fun _ => rfl, rfl, rfl, rfl⟩
